import Mathlib

/-!
Verification development for the Spring Change Detection application.

The repository compares two PTA vehicle-configuration spreadsheets (an old
and a new snapshot) and classifies each row of the new snapshot as New,
Spring Changed or Unchanged, with a mass delta and a mass status.

This file gives a shallow embedding of the parts of the program the claims
are about:

* the reconciliation engine (`reconcile`, `generate_results_df`) — the
  `data_processing` module is not part of the reviewed sources (only the
  call site in `src/gui/analysis_widget.py` that imports it is), so it is
  modelled from the specification, as marked on each definition;
* `FileHandler.validate_excel_file` / `FileHandler._validate_columns` and
  the `UPLOAD_CONFIG` / `REQUIRED_COLUMNS` constants
  (`src/utils/file_handler.py`);
* the pandas loading convention `read_excel(sheet_name="PTA", skiprows=[1])`;
* the unique-motors aggregates of `src/gui/analysis_widget.py`
  (`add_moteur_list`) and `src/gui/results_widget.py`
  (`create_moteur_list_tab`);
* `FileHandler.create_excel_bytes` and its row-highlighting loop;
* `AppState.reset_data` (`src/utils/app_state.py`).

Python strings are modelled by `String`, floats by `ℚ` (the sources use
exact comparisons, no tolerance band), pandas missing values by `Option`,
and Python dictionaries by association lists folded left-to-right (last
write wins).
-/

/-! ## The reconciliation engine (modelled from the spec) -/

/-- Vehicle category enum, spec §4.1: `{VP, VU}`. -/

inductive VehicleCategory
  | VP
  | VU
deriving DecidableEq

/-- Classification of an output record, spec §3: `{New, Spring Changed, Unchanged}`. -/

inductive ChangeType
  | New
  | SpringChanged
  | Unchanged
deriving DecidableEq

/-- Mass status of a matched record, spec §3: `{Increased, Decreased, Unchanged}`. -/

inductive MassStatus
  | Increased
  | Decreased
  | MassUnchanged
deriving DecidableEq

/-- Modelled from the spec: one vehicle configuration record (spec §3 `Row`).
`key` is the stable vehicle identity attribute (the join key, distinct from
the changeable `reference`); `rowPosition` is the 1-based position in the
source sheet (the Cell ID). -/

structure Row where
  key : String
  reference : String
  mass : ℚ
  motor : Option String
  rowPosition : Nat
deriving DecidableEq

/-- Modelled from the spec: one output row (spec §3 `ReconciledRecord`). -/

structure ReconciledRecord where
  changeType : ChangeType
  oldReference : Option String
  newReference : String
  oldMass : Option ℚ
  newMass : ℚ
  massDifference : Option ℚ
  massStatus : Option MassStatus
  cellIdNew : Nat
  cellIdOld : Option Nat
deriving DecidableEq

/-- Modelled from the spec: derivation of `massStatus` from the sign of the
mass difference (spec §4.1 step 3), with exact, epsilon-free comparisons. -/

def massStatusOf (d : ℚ) : MassStatus :=
  if d > 0 then .Increased
  else if d < 0 then .Decreased
  else .MassUnchanged

/-- Modelled from the spec: find the matching old-snapshot row for a
new-snapshot row by the vehicle identity attribute (spec §4.1 step 1), with
the deterministic first-occurrence tie-break of spec §7. -/

def findMatch (old : List Row) (r : Row) : Option Row :=
  old.find? (fun o => o.key == r.key)

/-- Modelled from the spec: the per-row classification of spec §4.1 steps 2–5
(the body of `generate_results_df`, whose `data_processing` module is not in
the reviewed sources). Evaluated in order, first match wins: no match → New
with the old-side fields absent; match with a different reference → Spring
Changed; match with the same reference → Unchanged. Matched records carry
`massDifference = newMass - oldMass` and its sign as `massStatus`. -/

def reconcileRow (old : List Row) (r : Row) : ReconciledRecord :=
  match findMatch old r with
  | none =>
      { changeType := .New
        oldReference := none
        newReference := r.reference
        oldMass := none
        newMass := r.mass
        massDifference := none
        massStatus := none
        cellIdNew := r.rowPosition
        cellIdOld := none }
  | some o =>
      { changeType := if o.reference ≠ r.reference then .SpringChanged else .Unchanged
        oldReference := some o.reference
        newReference := r.reference
        oldMass := some o.mass
        newMass := r.mass
        massDifference := some (r.mass - o.mass)
        massStatus := some (massStatusOf (r.mass - o.mass))
        cellIdNew := r.rowPosition
        cellIdOld := some o.rowPosition }

/-- Modelled from the spec: `reconcile(oldSnapshot, newSnapshot, vehicleCategory)`
(spec §4.1): one `ReconciledRecord` per new-snapshot row, in new-snapshot
order; old rows with no corresponding new row produce no record. The category
parameter selects category-specific business configuration the spec leaves
abstract; it does not alter the matching algorithm. -/

def reconcile (old : List Row) (new : List Row) (cat : VehicleCategory) :
    List ReconciledRecord :=
  match new with
  | [] => []
  | r :: rest => reconcileRow old r :: reconcile old rest cat

/-! ## DataFrames and file validation (`src/utils/file_handler.py`) -/

/-- A pandas DataFrame as used by the application: named columns and rows of
cells, a cell being a string value or missing (NaN). -/

structure DataFrame where
  columns : List String
  rows : List (List (Option String))
deriving DecidableEq

/-- pandas `DataFrame.empty`: true when any axis has length zero. -/

def DataFrame.isEmpty (df : DataFrame) : Bool :=
  df.rows.isEmpty || df.columns.isEmpty

/-- `UPLOAD_CONFIG["allowed_extension"]` of `src/utils/file_handler.py`. -/

def UPLOAD_CONFIG_allowedExtension : List String := ["xlsx", "xls"]

/-- `UPLOAD_CONFIG["max_file_size"]` (MB). -/

def UPLOAD_CONFIG_maxFileSize : ℚ := 200

/-- `UPLOAD_CONFIG["sheet_name"]`. -/

def UPLOAD_CONFIG_sheetName : String := "PTA"

/-- `UPLOAD_CONFIG["skip_rows"]`. -/

def UPLOAD_CONFIG_skipRows : List Nat := [1]

/-- `REQUIRED_COLUMNS["mass"]`. -/

def REQUIRED_COLUMNS_mass : String := "Masse suspendue en charge de référence"

/-- `REQUIRED_COLUMNS["reference"]`. -/

def REQUIRED_COLUMNS_reference : String := "Référence"

/-- The required columns missing from a DataFrame, in the order
`_validate_columns` checks them (mass first, then reference). -/

def missingRequiredColumns (df : DataFrame) : List String :=
  [REQUIRED_COLUMNS_mass, REQUIRED_COLUMNS_reference].filter
    (fun c => !(df.columns.contains c))

/-- `FileHandler._validate_columns`: reports the missing required columns,
joined with a comma, or succeeds with an empty message. -/

def validate_columns (df : DataFrame) : Bool × String :=
  let missing := missingRequiredColumns df
  if missing.isEmpty then (true, "")
  else (false, "Missing columns: " ++ String.intercalate ", " missing ++ ".")

/-- Python `str.lower()` on the extension strings handled here (ASCII). -/

def lowerStr (s : String) : String := ⟨s.data.map Char.toLower⟩

deriving instance DecidableEq for Except

/-- The facts about a path that `validate_excel_file` consults through the
operating system and pandas: whether the path exists, its extension after
the last dot (`os.path.splitext(file_path)[1][1:]`), its size in bytes, and
the outcome of `pd.read_excel(file_path, engine="openpyxl", sheet_name="PTA",
skiprows=[1])` — a DataFrame, or the message of the exception raised. -/

structure FileInfo where
  filePath : String
  pathExists : Bool
  ext : String
  sizeBytes : Nat
  readResult : Except String DataFrame
deriving DecidableEq

/-- `FileHandler.validate_excel_file`: the full validation chain. Every
fallible step is guarded in the source (the read is inside `try`), so the
function always returns a `(validity, message, DataFrame or None)` triple
rather than raising. -/

def validate_excel_file (fi : FileInfo) (fileLabel : String) :
    Bool × String × Option DataFrame :=
  if fi.filePath = "" then
    (false, "No " ++ fileLabel ++ " file selected.", none)
  else if !fi.pathExists then
    (false, "File " ++ fi.filePath ++ " does not exist.", none)
  else if !(UPLOAD_CONFIG_allowedExtension.contains (lowerStr fi.ext)) then
    (false, "Invalid file format. Please upload an Excel file (.xlsx or .xls).", none)
  else if (fi.sizeBytes : ℚ) / (1024 * 1024) > UPLOAD_CONFIG_maxFileSize then
    (false, "File size exceeds 200 MB.", none)
  else
    match fi.readResult with
    | .error e => (false, "Error reading " ++ fileLabel ++ " file: " ++ e, none)
    | .ok df =>
      if df.isEmpty then (false, fileLabel ++ " file is empty.", none)
      else
        let v := validate_columns df
        if !v.1 then (false, v.2, none)
        else (true, "File uploaded successfully.", some df)

/-- Modelled from the spec: a snapshot as handed to the reconciliation
engine — the parsed rows together with the column names of the source
table (the engine of spec §4.1 reads columns by name). -/

structure Snapshot where
  columns : List String
  rows : List Row
deriving DecidableEq

/-- Modelled from the spec: the typed failure of spec §7
(`InvalidInputError`), carrying a descriptive message. -/

structure InvalidInputError where
  message : String
deriving DecidableEq

/-- Modelled from the spec: the columns the engine requires — mass,
reference, and the configured identity join column (spec §4.1 error
conditions). -/

def engineRequiredColumns (identityCol : String) : List String :=
  [REQUIRED_COLUMNS_mass, REQUIRED_COLUMNS_reference, identityCol]

/-- The engine-required columns a snapshot is missing. -/

def snapshotMissingColumns (identityCol : String) (s : Snapshot) : List String :=
  (engineRequiredColumns identityCol).filter (fun c => !(s.columns.contains c))

/-- Modelled from the spec: `generate_results_df` (the `data_processing`
module is not in the reviewed sources). Per spec §4.1 and §7 it re-validates
defensively and fails fast with `InvalidInputError` — naming the missing
column(s) — when either snapshot is empty or misses a required column;
only then does it reconcile, so a failure never carries a partial result. -/

def generate_results_df (identityCol : String) (old new : Snapshot)
    (cat : VehicleCategory) : Except InvalidInputError (List ReconciledRecord) :=
  if old.rows.isEmpty || new.rows.isEmpty then
    .error ⟨"InvalidInputError: empty snapshot."⟩
  else
    let missing := (snapshotMissingColumns identityCol old ++
      snapshotMissingColumns identityCol new).dedup
    if missing.isEmpty then
      .ok (reconcile old.rows new.rows cat)
    else
      .error ⟨"InvalidInputError: missing required columns: " ++
        String.intercalate ", " missing ++ "."⟩

/-! ## The loading convention (`pd.read_excel(sheet_name="PTA", skiprows=[1])`) -/

/-- pandas `skiprows` (list form): drop the lines whose 0-based index is in
the list, keeping the others in order. -/

def dropSkipRows (idxs : List Nat) : Nat → List (List String) → List (List String)
  | _, [] => []
  | i, r :: rest =>
      if idxs.contains i then dropSkipRows idxs (i + 1) rest
      else r :: dropSkipRows idxs (i + 1) rest

/-- `pd.read_excel(..., sheet_name="PTA", skiprows=UPLOAD_CONFIG["skip_rows"])`
on the grid of the PTA sheet: `skiprows=[1]` removes the line with 0-based
index 1, and the default `header=0` then takes the first remaining line as
the column header, the rest being the data rows. `none` models an empty
parse (no header line at all). -/

def readPTASheet (sheetRows : List (List String)) :
    Option (List String × List (List String)) :=
  match dropSkipRows UPLOAD_CONFIG_skipRows 0 sheetRows with
  | [] => none
  | header :: dataRows => some (header, dataRows)

/-- The loading convention exactly as the claim words it: one row skipped
before the column header row, so the header would be the second sheet row. -/

def claimSkipBeforeHeaderRead (sheetRows : List (List String)) :
    Option (List String × List (List String)) :=
  match sheetRows.drop 1 with
  | [] => none
  | header :: dataRows => some (header, dataRows)

/-! ## The unique-motors aggregates
(`AnalysisWidget.add_moteur_list`, `ResultsWidget.create_moteur_list_tab`) -/

/-- Python string comparison, as `sorted` uses it: lexicographic on the
code points. -/

def pyLe (a b : String) : Prop := a.data ≤ b.data

instance : DecidableRel pyLe := fun a b => inferInstanceAs (Decidable (a.data ≤ b.data))

instance : IsTotal String pyLe := ⟨fun a b => le_total a.data b.data⟩

instance : IsTrans String pyLe := ⟨fun _ _ _ h1 h2 => le_trans h1 h2⟩

instance : IsAntisymm String pyLe := ⟨fun a b h1 h2 => by
  cases a; cases b
  simp only [pyLe] at h1 h2
  simp [le_antisymm h1 h2]⟩

/-- Python `sorted` on strings. -/

def pySorted (l : List String) : List String := l.insertionSort pyLe

/-- One step of pandas `unique`: keep the value if it was not seen yet. -/

def uniqueStep (acc : List String) (x : String) : List String :=
  if acc.contains x then acc else acc ++ [x]

/-- pandas `unique`: the distinct values in first-occurrence order. -/

def uniqueKeepFirst (l : List String) : List String := l.foldl uniqueStep []

/-- pandas `Series.dropna().unique()` on a column of cells: the distinct
non-missing values. -/

def dropnaUnique (cells : List (Option String)) : List String :=
  uniqueKeepFirst (cells.filterMap id)

/-- The cells of a named column. -/

def colValues (df : DataFrame) (c : String) : List (Option String) :=
  match df.columns.findIdx? (fun x => x == c) with
  | none => []
  | some j => df.rows.map (fun row => (row[j]?).join)

/-- The Moteur cells a widget reads from an optionally loaded DataFrame:
nothing when the frame is absent or has no Moteur column. -/

def optMotorCells : Option DataFrame → List (Option String)
  | none => []
  | some df => if df.columns.contains "Moteur" then colValues df "Moteur" else []

/-- Python truthiness of a stripped string: blank means empty or
whitespace-only. -/

def isBlank (s : String) : Bool := s.data.all (fun c => c.isWhitespace)

/-- `AnalysisWidget.add_moteur_list` collection phase: extend with the
dropna-unique Moteur values of the new file, then of the old file. -/

def moteurValuesCollected (oldDf newDf : Option DataFrame) : List String :=
  dropnaUnique (optMotorCells newDf) ++ dropnaUnique (optMotorCells oldDf)

/-- `AnalysisWidget.add_moteur_list` display phase:
`unique_moteurs = sorted(set(moteurs))`, and the label loop skips values
that are falsy or strip to nothing. -/

def addMoteurListDisplayed (oldDf newDf : Option DataFrame) : List String :=
  (pySorted (moteurValuesCollected oldDf newDf).dedup).filter (fun m => !(isBlank m))

/-- `ResultsWidget.create_moteur_list_tab`: shows
`sorted(new_df["Moteur"].dropna().unique())` — reading the NEW file only —
or no list when the new frame is absent or lacks the column. -/

def moteurListTab (newDf : Option DataFrame) : Option (List String) :=
  match newDf with
  | none => none
  | some df =>
      if df.columns.contains "Moteur" then
        some (pySorted (dropnaUnique (colValues df "Moteur")))
      else none

/-- The distinct-motors aggregate as the spec words it: the ascending sorted
set of distinct Moteur values across BOTH snapshots, compared exactly (case-
and whitespace-sensitively), with missing and blank values excluded. -/

def specDistinctMotors (oldDf newDf : Option DataFrame) : List String :=
  pySorted
    ((((optMotorCells oldDf ++ optMotorCells newDf).filterMap id).filter
      (fun m => !(isBlank m))).dedup)

/-! ## Excel export highlighting (`FileHandler.create_excel_bytes`) -/

/-- One worksheet cell: its value and its style (fill color and font color,
as openpyxl `PatternFill`/`Font` color codes; empty string for the default
style of a cell that was never given one). -/

structure XCell where
  value : Option String
  fill : String
  font : String
deriving DecidableEq

/-- The cell openpyxl reports at a coordinate it has not materialized. -/

def defaultXCell : XCell := ⟨none, "", ""⟩

/-- A worksheet: its rows of cells, Excel row 1 first. -/

structure Worksheet where
  rows : List (List XCell)
deriving DecidableEq

/-- `ws.max_column`: the widest materialized row. -/

def Worksheet.maxColumn (ws : Worksheet) : Nat :=
  ws.rows.foldr (fun row m => max row.length m) 0

/-- The materialized cells of 1-based row `r`. -/

def Worksheet.rowAt (ws : Worksheet) (r : Nat) : List XCell :=
  (ws.rows[r - 1]?).getD []

/-- `ws.cell(row=r, column=c)` (both 1-based). -/

def Worksheet.cellAt (ws : Worksheet) (r c : Nat) : XCell :=
  ((ws.rowAt r)[c - 1]?).getD defaultXCell

/-- Replace 1-based row `r` (no effect past the materialized rows). -/

def Worksheet.setRow (ws : Worksheet) (r : Nat) (newRow : List XCell) : Worksheet :=
  ⟨ws.rows.set (r - 1) newRow⟩

/-- `PatternFill('solid', fgColor='FF5733')` for New rows. -/

def newRowFill : String := "FF5733"

/-- `Font(color='FFFFFF')` for New rows. -/

def newRowFont : String := "FFFFFF"

/-- `PatternFill('solid', fgColor='B4C6E7')` for Spring Changed rows. -/

def changedRowFill : String := "B4C6E7"

/-- `Font(color='000000')` for Spring Changed rows. -/

def changedRowFont : String := "000000"

/-- `cell.fill = fill; cell.font = font`: restyle one cell, keeping its value. -/

def restyleCell (fill font : String) (c : XCell) : XCell :=
  { c with fill := fill, font := font }

/-- `for col in range(1, ws.max_column + 1): ...`: the row after every cell
in columns 1..width was restyled (materializing cells the row lacked). -/

def restyleRow (fill font : String) (width : Nat) (row : List XCell) : List XCell :=
  (List.range width).map (fun j => restyleCell fill font ((row[j]?).getD defaultXCell))

/-- The `cell_id_to_change` dictionary: built row by row from the
`Cell ID New` and `Change Type` columns of the results, a later row
overwriting an earlier one with the same Cell ID; then looked up. -/

def cellIdToChange (results : List (Nat × String)) (id : Nat) : Option String :=
  results.foldl (fun acc p => if p.1 = id then some p.2 else acc) none

/-- The body of one highlighting iteration: when the row's Cell ID maps to
New or Spring Changed, restyle its cells across columns 1..max_column with
the matching fill and font; otherwise leave the sheet untouched. -/

def applyHighlight (m : Nat → Option String) (ws : Worksheet) (r : Nat) : Worksheet :=
  match m r with
  | some ct =>
      if ct = "New" then
        ws.setRow r (restyleRow newRowFill newRowFont ws.maxColumn (ws.rowAt r))
      else if ct = "Spring Changed" then
        ws.setRow r (restyleRow changedRowFill changedRowFont ws.maxColumn (ws.rowAt r))
      else ws
  | none => ws

/-- `start_row = UPLOAD_CONFIG["skip_rows"][0] + 2` (= 3). -/

def startRow : Nat := UPLOAD_CONFIG_skipRows.headD 0 + 2

/-- `max_iterations = 10000`. -/

def maxIterations : Nat := 10000

/-- The `while iterations < max_iterations` loop: stop when the fuel runs
out or the current row's first-column cell has no value, else highlight the
row as its Cell ID dictates and move to the next row. -/

def highlightLoop (m : Nat → Option String) : Worksheet → Nat → Nat → Worksheet
  | ws, _, 0 => ws
  | ws, r, fuel + 1 =>
      if (ws.cellAt r 1).value = none then ws
      else highlightLoop m (applyHighlight m ws r) (r + 1) fuel

/-- The whole highlighting pass of `create_excel_bytes` over the PTA sheet. -/

def highlightWorkbook (m : Nat → Option String) (ws : Worksheet) : Worksheet :=
  highlightLoop m ws startRow maxIterations

/-- Row `r` is reached by the highlighting scan of `ws`: it lies in the
fuel-bounded window starting at row 3 and no row from the start up to and
including `r` has an empty first-column cell. -/

def Scanned (ws : Worksheet) (r : Nat) : Prop :=
  startRow ≤ r ∧ r < startRow + maxIterations ∧
    ∀ r', startRow ≤ r' → r' ≤ r → (ws.cellAt r' 1).value ≠ none

instance instDecidableScanned (ws : Worksheet) (r : Nat) : Decidable (Scanned ws r) :=
  decidable_of_iff
    (startRow ≤ r ∧ r < startRow + maxIterations ∧
      ∀ r' < r + 1, startRow ≤ r' → (ws.cellAt r' 1).value ≠ none) (by
    unfold Scanned
    refine and_congr_right fun _ => and_congr_right fun _ => ⟨?_, ?_⟩
    · intro h r' h1 h2
      exact h r' (Nat.lt_succ_of_le h2) h1
    · intro h r' h2 h1
      exact h r' h1 (Nat.lt_succ_iff.mp h2))

/-- The cell the scan leaves at `(r, c)` once it has reached row `r`. -/

def highlightedCell (m : Nat → Option String) (ws : Worksheet) (r c : Nat) : XCell :=
  match m r with
  | some ct =>
      if ct = "New" then
        if c ≤ ws.maxColumn then restyleCell newRowFill newRowFont (ws.cellAt r c)
        else ws.cellAt r c
      else if ct = "Spring Changed" then
        if c ≤ ws.maxColumn then restyleCell changedRowFill changedRowFont (ws.cellAt r c)
        else ws.cellAt r c
      else ws.cellAt r c
  | none => ws.cellAt r c

/-- A sheet whose data region (rows 3 and beyond) starts with an EMPTY
first-column cell at row 3 while row 4 still holds data. -/

def cexSheet : Worksheet :=
  ⟨[[⟨some "head", "", ""⟩], [⟨some "skip", "", ""⟩], [⟨none, "", ""⟩],
    [⟨some "data", "", ""⟩]]⟩

/-- A sheet with one data row at row 3 and nothing after it. -/

def witnessSheet : Worksheet :=
  ⟨[[⟨some "head", "", ""⟩], [⟨some "skip", "", ""⟩], [⟨some "data", "", ""⟩],
    [⟨none, "", ""⟩]]⟩

/-- A workbook as `create_excel_bytes` sees it: whether a sheet named PTA
exists among `wb.sheetnames`, and that sheet's grid. -/

structure Workbook where
  hasPTASheet : Bool
  pta : Worksheet
deriving DecidableEq

/-- What `create_excel_bytes` returns as bytes: the saved (possibly
highlighted) workbook, or the raw content of the original file re-read from
disk by the exception handler. -/

inductive ExcelBytes
  | saved (wb : Workbook)
  | originalFile
deriving DecidableEq

/-- The original file handed to `create_excel_bytes`: its path (`None` by
default), whether that path exists, the workbook `load_workbook` would
yield, and whether anything inside the `try` block (loading, highlighting
or saving) raises. -/

structure OriginalFile where
  path : Option String
  pathExists : Bool
  wb : Workbook
  internalFailure : Bool
deriving DecidableEq

/-- `FileHandler.create_excel_bytes`: raise `ValueError` when the path is
falsy or missing; inside the guarded block, any failure falls back to
returning the original file's bytes unchanged; otherwise highlight the PTA
sheet (when there is one) and save. -/

def create_excel_bytes (results : List (Nat × String)) (f : OriginalFile) :
    Except String ExcelBytes :=
  if f.path.getD "" = "" ∨ f.pathExists = false then
    .error "Original file path is required and must exist."
  else if f.internalFailure then
    .ok .originalFile
  else if f.wb.hasPTASheet then
    .ok (.saved ⟨true, highlightWorkbook (cellIdToChange results) f.wb.pta⟩)
  else
    .ok (.saved f.wb)

/-! ## Application state (`src/utils/app_state.py`) -/

/-- `AppState`: the application-wide state object of `src/utils/app_state.py`.
DataFrames, paths and the results table start as `None`; the Excel sheet and
graph caches are dictionaries (association lists here); `pta_type` defaults
to VP; `current_step` is 0 (upload), 1 (analysis) or 2 (results). -/

structure AppState where
  old_df : Option DataFrame
  new_df : Option DataFrame
  results_df : Option DataFrame
  old_file_path : Option String
  new_file_path : Option String
  pta_type : String
  current_step : Nat
  analysis_completed : Bool
  excel_sheets_data : List (String × DataFrame)
  excel_graphs_data : List (String × List String)
deriving DecidableEq

/-- `AppState.reset_data`: reset all data-related state. -/

def AppState.reset_data (s : AppState) : AppState :=
  { s with
    old_df := none
    new_df := none
    results_df := none
    old_file_path := none
    new_file_path := none
    excel_sheets_data := []
    excel_graphs_data := []
    analysis_completed := false
    current_step := 0 }

/-! ## Theorems -/

theorem reconcile_cons (old : List Row) (r : Row) (rest : List Row)
    (cat : VehicleCategory) :
    reconcile old (r :: rest) cat = reconcileRow old r :: reconcile old rest cat :=
  rfl

/-- C1: for all inputs, the reconciliation result has exactly one record per
row of the new snapshot — the length equals the new snapshot's length, index
`i` of the result is the record produced from index `i` of the new snapshot,
and old rows with no corresponding new row contribute nothing. -/
theorem reconcile_completeness (old new : List Row) (cat : VehicleCategory) :
    (reconcile old new cat).length = new.length ∧
      ∀ i : Nat, (reconcile old new cat)[i]? = (new[i]?).map (reconcileRow old) := by
  induction new with
  | nil => exact ⟨rfl, fun i => by cases i <;> rfl⟩
  | cons r rest ih =>
      refine ⟨by simpa [reconcile] using ih.1, fun i => ?_⟩
      cases i with
      | zero => simp [reconcile_cons]
      | succ j => simpa [reconcile] using ih.2 j

/-- C2: the classification of every output record is decided in order, first
match wins: no matching old row → `New` with `oldReference`, `oldMass` and
`massStatus` absent; matching old row with a different reference →
`Spring Changed`; matching old row with the same reference → `Unchanged`. -/
theorem reconcile_classification_policy (old new : List Row)
    (cat : VehicleCategory) (rec : ReconciledRecord)
    (h : rec ∈ reconcile old new cat) :
    ∃ r ∈ new, rec = reconcileRow old r ∧
      (findMatch old r = none →
        rec.changeType = .New ∧ rec.oldReference = none ∧
          rec.oldMass = none ∧ rec.massStatus = none) ∧
      (∀ o : Row, findMatch old r = some o →
        (o.reference ≠ r.reference → rec.changeType = .SpringChanged) ∧
        (o.reference = r.reference → rec.changeType = .Unchanged)) := by
  induction new with
  | nil => cases h
  | cons q rest ih =>
      rw [reconcile_cons, List.mem_cons] at h
      rcases h with h | h
      · refine ⟨q, List.mem_cons_self q rest, h, ?_, ?_⟩
        · intro hnone
          simp [h, reconcileRow, hnone]
        · intro o ho
          subst h
          constructor
          · intro hne
            simp only [reconcileRow, ho, if_pos hne]
          · intro heq
            have hnot : ¬ o.reference ≠ q.reference := by simp [heq]
            simp only [reconcileRow, ho, if_neg hnot]
      · obtain ⟨r, hr, hrest⟩ := ih h
        exact ⟨r, List.mem_cons_of_mem q hr, hrest⟩

/-- Concrete instantiation of `reconcile_classification_policy`: a one-row
new snapshot with no old rows yields a record classified `New`. -/
theorem reconcile_classification_policy_witness :
    ∃ r ∈ [Row.mk "K1" "B1" 90 none 3],
      reconcileRow [] (Row.mk "K1" "B1" 90 none 3) = reconcileRow [] r ∧
      (findMatch [] r = none →
        (reconcileRow [] (Row.mk "K1" "B1" 90 none 3)).changeType = .New ∧
          (reconcileRow [] (Row.mk "K1" "B1" 90 none 3)).oldReference = none ∧
          (reconcileRow [] (Row.mk "K1" "B1" 90 none 3)).oldMass = none ∧
          (reconcileRow [] (Row.mk "K1" "B1" 90 none 3)).massStatus = none) ∧
      (∀ o : Row, findMatch [] r = some o →
        (o.reference ≠ r.reference →
          (reconcileRow [] (Row.mk "K1" "B1" 90 none 3)).changeType = .SpringChanged) ∧
        (o.reference = r.reference →
          (reconcileRow [] (Row.mk "K1" "B1" 90 none 3)).changeType = .Unchanged)) :=
  reconcile_classification_policy [] [Row.mk "K1" "B1" 90 none 3] .VP
    (reconcileRow [] (Row.mk "K1" "B1" 90 none 3)) (by simp [reconcile])

/-- C3: for every matched record, `massDifference` is exactly
`newMass - oldMass` (no tolerance), `massStatus` follows the strict sign of
the difference, and the change-type and mass-status axes are independent: a
record with an unchanged reference can still have a nonzero mass difference
(spec §8 scenario 5). -/
theorem reconcile_mass_delta :
    (∀ (old : List Row) (r o : Row), findMatch old r = some o →
      (reconcileRow old r).massDifference = some (r.mass - o.mass) ∧
      (reconcileRow old r).oldMass = some o.mass ∧
      (reconcileRow old r).newMass = r.mass ∧
      (r.mass - o.mass > 0 → (reconcileRow old r).massStatus = some .Increased) ∧
      (r.mass - o.mass < 0 → (reconcileRow old r).massStatus = some .Decreased) ∧
      (r.mass - o.mass = 0 → (reconcileRow old r).massStatus = some .MassUnchanged)) ∧
    (∃ (old new : List Row) (cat : VehicleCategory),
      ∃ rec ∈ reconcile old new cat,
        rec.changeType = .Unchanged ∧ rec.massDifference = some (-5) ∧
          rec.massStatus = some .Decreased) := by
  constructor
  · intro old r o h
    refine ⟨by simp [reconcileRow, h], by simp [reconcileRow, h],
      by simp [reconcileRow, h], ?_, ?_, ?_⟩
    · intro hpos
      simp [reconcileRow, h, massStatusOf, hpos]
    · intro hneg
      simp [reconcileRow, h, massStatusOf, not_lt.mpr (le_of_lt hneg), hneg]
    · intro hzero
      simp [reconcileRow, h, massStatusOf, hzero]
  · refine ⟨[Row.mk "K1" "A1" 100 none 3], [Row.mk "K1" "A1" 95 none 3], .VP,
      reconcileRow [Row.mk "K1" "A1" 100 none 3] (Row.mk "K1" "A1" 95 none 3),
      by simp [reconcile], ?_, ?_, ?_⟩
    · norm_num [reconcileRow, findMatch]
    · norm_num [reconcileRow, findMatch]
    · norm_num [reconcileRow, findMatch, massStatusOf]

/-- Concrete instantiation of `reconcile_mass_delta`: a matched row with
mass going from 100 to 110 gets difference 10 and status Increased. -/
theorem reconcile_mass_delta_witness :
    (reconcileRow [Row.mk "K1" "A1" 100 none 3] (Row.mk "K1" "A2" 110 none 3)).massDifference
        = some ((110 : ℚ) - 100) ∧
      (reconcileRow [Row.mk "K1" "A1" 100 none 3] (Row.mk "K1" "A2" 110 none 3)).massStatus
        = some .Increased := by
  have h := (reconcile_mass_delta.1 [Row.mk "K1" "A1" 100 none 3]
    (Row.mk "K1" "A2" 110 none 3) (Row.mk "K1" "A1" 100 none 3) (by decide))
  exact ⟨h.1, h.2.2.2.1 (by norm_num)⟩

/-- C8: `validate_excel_file` is a total function into result triples: each
rejection condition (empty path, missing file, bad extension compared after
lowercasing, size above 200 MB, failed read) yields `(False, message, None)`,
and a `True` result is possible only when every check passed, carrying the
parsed DataFrame. -/
theorem validate_excel_file_total_spec (fi : FileInfo) (fileLabel : String) :
    (fi.filePath = "" →
      (validate_excel_file fi fileLabel).1 = false ∧
        (validate_excel_file fi fileLabel).2.2 = none) ∧
    (fi.pathExists = false →
      (validate_excel_file fi fileLabel).1 = false ∧
        (validate_excel_file fi fileLabel).2.2 = none) ∧
    (UPLOAD_CONFIG_allowedExtension.contains (lowerStr fi.ext) = false →
      (validate_excel_file fi fileLabel).1 = false ∧
        (validate_excel_file fi fileLabel).2.2 = none) ∧
    ((fi.sizeBytes : ℚ) / (1024 * 1024) > UPLOAD_CONFIG_maxFileSize →
      (validate_excel_file fi fileLabel).1 = false ∧
        (validate_excel_file fi fileLabel).2.2 = none) ∧
    (∀ e : String, fi.readResult = .error e →
      (validate_excel_file fi fileLabel).1 = false ∧
        (validate_excel_file fi fileLabel).2.2 = none) ∧
    ((validate_excel_file fi fileLabel).1 = true →
      fi.filePath ≠ "" ∧ fi.pathExists = true ∧
        UPLOAD_CONFIG_allowedExtension.contains (lowerStr fi.ext) = true ∧
        ¬ ((fi.sizeBytes : ℚ) / (1024 * 1024) > UPLOAD_CONFIG_maxFileSize) ∧
        ∃ df : DataFrame, fi.readResult = .ok df ∧ df.isEmpty = false ∧
          (validate_columns df).1 = true ∧
          (validate_excel_file fi fileLabel).2.2 = some df) := by
  rcases hr : fi.readResult with e | df
  · simp only [validate_excel_file, hr]
    split_ifs with h1 h2 h3 h4 <;> simp_all
  · simp only [validate_excel_file, hr]
    split_ifs with h1 h2 h3 h4 h5 h6 <;> simp_all

/-- Concrete instantiation of `validate_excel_file_total_spec`: a `.txt`
path is rejected with no DataFrame. -/
theorem validate_excel_file_total_spec_witness :
    (validate_excel_file ⟨"data.txt", true, "txt", 1000, .error "boom"⟩ "old").1 = false ∧
      (validate_excel_file ⟨"data.txt", true, "txt", 1000, .error "boom"⟩ "old").2.2 = none :=
  (validate_excel_file_total_spec ⟨"data.txt", true, "txt", 1000, .error "boom"⟩ "old").2.2.1
    (by decide)

/-- C4: an empty snapshot, or a required column (mass, reference, or the
identity join column) missing from either snapshot, makes the analysis fail
with `InvalidInputError` whose message names the missing column(s); the
result is the typed error alone, never a partial record set. The upstream
`FileHandler._validate_columns` check of the source likewise reports every
missing required column by name. -/
theorem invalid_input_rejection :
    (∀ (identityCol : String) (old new : Snapshot) (cat : VehicleCategory),
      old.rows.isEmpty = true ∨ new.rows.isEmpty = true →
        generate_results_df identityCol old new cat =
          .error ⟨"InvalidInputError: empty snapshot."⟩) ∧
    (∀ (identityCol : String) (old new : Snapshot) (cat : VehicleCategory),
      (snapshotMissingColumns identityCol old ++
          snapshotMissingColumns identityCol new).dedup ≠ [] →
        ∃ err : InvalidInputError,
          generate_results_df identityCol old new cat = .error err ∧
          (old.rows.isEmpty = false → new.rows.isEmpty = false →
            err.message = "InvalidInputError: missing required columns: " ++
              String.intercalate ", "
                ((snapshotMissingColumns identityCol old ++
                  snapshotMissingColumns identityCol new).dedup) ++ ".")) ∧
    (∀ df : DataFrame, missingRequiredColumns df ≠ [] →
      validate_columns df =
        (false, "Missing columns: " ++
          String.intercalate ", " (missingRequiredColumns df) ++ ".")) := by
  refine ⟨?_, ?_, ?_⟩
  · intro identityCol old new cat h
    unfold generate_results_df
    rw [if_pos]
    rcases h with h | h <;> simp [h]
  · intro identityCol old new cat hm
    by_cases he : old.rows.isEmpty || new.rows.isEmpty
    · exact ⟨⟨"InvalidInputError: empty snapshot."⟩,
        by unfold generate_results_df; rw [if_pos he],
        fun h1 h2 => by simp [h1, h2] at he⟩
    · refine ⟨⟨"InvalidInputError: missing required columns: " ++
        String.intercalate ", "
          ((snapshotMissingColumns identityCol old ++
            snapshotMissingColumns identityCol new).dedup) ++ "."⟩, ?_, fun _ _ => rfl⟩
      unfold generate_results_df
      rw [if_neg he, if_neg (by simpa using hm)]
  · intro df hm
    unfold validate_columns
    rw [if_neg (by simpa using hm)]

/-- Concrete instantiation of `invalid_input_rejection`: a DataFrame without
the reference column is rejected with a message naming it. -/
theorem invalid_input_rejection_witness :
    validate_columns ⟨["Masse suspendue en charge de référence", "Moteur"], [[some "1"]]⟩ =
      (false, "Missing columns: " ++
        String.intercalate ", "
          (missingRequiredColumns
            ⟨["Masse suspendue en charge de référence", "Moteur"], [[some "1"]]⟩) ++ ".") :=
  invalid_input_rejection.2.2
    ⟨["Masse suspendue en charge de référence", "Moteur"], [[some "1"]]⟩ (by decide)

theorem dropSkipRows_one_ge_two (l : List (List String)) :
    ∀ i : Nat, 2 ≤ i → dropSkipRows [1] i l = l := by
  induction l with
  | nil => intro i _; rfl
  | cons r rest ih =>
      intro i hi
      have hne : ([1] : List Nat).contains i = false := by
        simp only [List.contains_cons, List.contains_nil, Bool.or_false,
          beq_eq_false_iff_ne, ne_eq]
        omega
      simp only [dropSkipRows, hne, Bool.false_eq_true, if_false]
      rw [ih (i + 1) (by omega)]

/-- C5 counterexample: on a sheet whose first row is the header, whose second
row is the skipped filler row and whose third row is data, the source
convention (`skiprows=[1]`, header first) disagrees with the claimed
convention (one row skipped before the header). -/
theorem header_skip_convention_cex :
    readPTASheet [["Référence"], ["junk"], ["A"]] ≠
      claimSkipBeforeHeaderRead [["Référence"], ["junk"], ["A"]] := by
  decide

/-- C5 (amended): each input spreadsheet is loaded from the fixed sheet name
PTA with exactly one skipped row, but the skipped row lies between the
column header row — the sheet's first row — and the first data row, not
before the header; and validation succeeds only when both the mass column
and the reference column are present among the parsed header names. -/
theorem header_skip_convention (hd : List String) (tl : List (List String)) :
    UPLOAD_CONFIG_sheetName = "PTA" ∧
    UPLOAD_CONFIG_skipRows = [1] ∧
    readPTASheet (hd :: tl) = some (hd, tl.drop 1) ∧
    (∀ df : DataFrame, (validate_columns df).1 = true ↔
      (REQUIRED_COLUMNS_mass ∈ df.columns ∧ REQUIRED_COLUMNS_reference ∈ df.columns)) := by
  refine ⟨rfl, rfl, ?_, ?_⟩
  · cases tl with
    | nil => rfl
    | cons b tl' =>
        show (match dropSkipRows [1] 0 (hd :: b :: tl') with
          | [] => none
          | header :: dataRows => some (header, dataRows)) = some (hd, tl')
        have h0 : dropSkipRows [1] 0 (hd :: b :: tl') = hd :: dropSkipRows [1] 1 (b :: tl') := by
          simp [dropSkipRows]
        have h1 : dropSkipRows [1] 1 (b :: tl') = dropSkipRows [1] 2 tl' := by
          simp [dropSkipRows]
        rw [h0, h1, dropSkipRows_one_ge_two tl' 2 le_rfl]
  · intro df
    unfold validate_columns missingRequiredColumns
    by_cases hm : REQUIRED_COLUMNS_mass ∈ df.columns <;>
      by_cases hr : REQUIRED_COLUMNS_reference ∈ df.columns <;>
        simp [hm, hr]

theorem mem_foldl_uniqueStep (l : List String) :
    ∀ (acc : List String) (x : String), x ∈ l.foldl uniqueStep acc ↔ x ∈ acc ∨ x ∈ l := by
  induction l with
  | nil => intro acc x; simp
  | cons a t ih =>
      intro acc x
      rw [List.foldl_cons, ih]
      by_cases h : acc.contains a
      · have ha : a ∈ acc := by simpa using h
        simp only [uniqueStep, h, if_true, List.mem_cons]
        constructor
        · rintro (h1 | h1)
          · exact Or.inl h1
          · exact Or.inr (Or.inr h1)
        · rintro (h1 | rfl | h1)
          · exact Or.inl h1
          · exact Or.inl ha
          · exact Or.inr h1
      · have hb : acc.contains a = false := by simpa using h
        simp only [uniqueStep, hb, Bool.false_eq_true, if_false, List.mem_append,
          List.mem_singleton, List.mem_cons]
        tauto

theorem nodup_foldl_uniqueStep (l : List String) :
    ∀ acc : List String, acc.Nodup → (l.foldl uniqueStep acc).Nodup := by
  induction l with
  | nil => intro acc h; simpa using h
  | cons a t ih =>
      intro acc h
      rw [List.foldl_cons]
      apply ih
      by_cases hc : acc.contains a
      · have ha : a ∈ acc := by simpa using hc
        simpa [uniqueStep, ha] using h
      · have ha : a ∉ acc := by simpa using hc
        simp [uniqueStep, ha, List.nodup_append, h]

theorem mem_uniqueKeepFirst (l : List String) (x : String) :
    x ∈ uniqueKeepFirst l ↔ x ∈ l := by
  simpa using mem_foldl_uniqueStep l [] x

theorem nodup_uniqueKeepFirst (l : List String) : (uniqueKeepFirst l).Nodup :=
  nodup_foldl_uniqueStep l [] List.nodup_nil

theorem mem_pySorted (l : List String) (x : String) : x ∈ pySorted l ↔ x ∈ l :=
  (List.perm_insertionSort pyLe l).mem_iff

theorem sorted_pySorted (l : List String) : (pySorted l).Sorted pyLe :=
  List.sorted_insertionSort pyLe l

theorem nodup_pySorted (l : List String) (h : l.Nodup) : (pySorted l).Nodup :=
  (List.perm_insertionSort pyLe l).nodup_iff.mpr h

/-- C6 counterexample: the Moteur List tab of the results screen reads the
new snapshot only, so a motor present only in the old snapshot is absent
from it while the spec aggregate contains it. -/
theorem moteur_aggregate_cex :
    moteurListTab (some ⟨["Moteur"], [[some "A"]]⟩) ≠
      some (specDistinctMotors (some ⟨["Moteur"], [[some "Z"]]⟩)
        (some ⟨["Moteur"], [[some "A"]]⟩)) := by
  decide

/-- C6 (amended): the motors list of the analysis step equals the sorted set
of distinct Moteur values across both snapshots, compared exactly, missing
and blank values excluded; the Moteur List tab of the results step, however,
draws from the NEW snapshot only (and keeps blank values), matching the
spec aggregate of the new snapshot alone when no blank motors occur. -/
theorem moteur_aggregate_spec :
    (∀ oldDf newDf : Option DataFrame,
      addMoteurListDisplayed oldDf newDf = specDistinctMotors oldDf newDf) ∧
    (∀ df : DataFrame, df.columns.contains "Moteur" = true →
      (∀ m ∈ (colValues df "Moteur").filterMap id, isBlank m = false) →
      moteurListTab (some df) = some (specDistinctMotors none (some df))) := by
  constructor
  · intro oldDf newDf
    unfold addMoteurListDisplayed specDistinctMotors
    have hs1 : ((pySorted (moteurValuesCollected oldDf newDf).dedup).filter
        (fun m => !(isBlank m))).Sorted pyLe :=
      List.Pairwise.filter _ (sorted_pySorted _)
    have hs2 : (pySorted
        ((((optMotorCells oldDf ++ optMotorCells newDf).filterMap id).filter
          (fun m => !(isBlank m))).dedup)).Sorted pyLe := sorted_pySorted _
    have hperm : List.Perm
        ((pySorted (moteurValuesCollected oldDf newDf).dedup).filter
          (fun m => !(isBlank m)))
        (pySorted
          ((((optMotorCells oldDf ++ optMotorCells newDf).filterMap id).filter
            (fun m => !(isBlank m))).dedup)) := by
      rw [List.perm_ext_iff_of_nodup
        (((nodup_pySorted _ (List.nodup_dedup _))).filter _)
        (nodup_pySorted _ (List.nodup_dedup _))]
      intro x
      simp only [List.mem_filter, mem_pySorted, List.mem_dedup,
        moteurValuesCollected, dropnaUnique, List.mem_append, mem_uniqueKeepFirst,
        List.mem_filterMap, List.filterMap_append, id_eq]
      aesop
    exact List.eq_of_perm_of_sorted hperm hs1 hs2
  · intro df hc hnb
    simp only [moteurListTab]
    rw [if_pos hc]
    apply congrArg
    simp only [specDistinctMotors, optMotorCells]
    rw [if_pos hc, List.nil_append]
    have hfilter :
        (((colValues df "Moteur").filterMap id).filter (fun m => !(isBlank m))) =
          (colValues df "Moteur").filterMap id := by
      apply List.filter_eq_self.mpr
      intro a ha
      simp [hnb a ha]
    rw [hfilter]
    unfold dropnaUnique
    have hs1 : (pySorted (uniqueKeepFirst ((colValues df "Moteur").filterMap id))).Sorted pyLe :=
      sorted_pySorted _
    have hs2 : (pySorted ((colValues df "Moteur").filterMap id).dedup).Sorted pyLe :=
      sorted_pySorted _
    have hperm : List.Perm
        (pySorted (uniqueKeepFirst ((colValues df "Moteur").filterMap id)))
        (pySorted ((colValues df "Moteur").filterMap id).dedup) := by
      rw [List.perm_ext_iff_of_nodup
        (nodup_pySorted _ (nodup_uniqueKeepFirst _))
        (nodup_pySorted _ (List.nodup_dedup _))]
      intro x
      simp [mem_pySorted, mem_uniqueKeepFirst, List.mem_dedup]
    exact List.eq_of_perm_of_sorted hperm hs1 hs2

/-- Concrete instantiation of `moteur_aggregate_spec`: a new snapshot with
motors B and A and no blanks shows the sorted list A, B in the results tab. -/
theorem moteur_aggregate_spec_witness :
    moteurListTab (some ⟨["Moteur"], [[some "B"], [some "A"]]⟩) =
      some (specDistinctMotors none (some ⟨["Moteur"], [[some "B"], [some "A"]]⟩)) :=
  moteur_aggregate_spec.2 ⟨["Moteur"], [[some "B"], [some "A"]]⟩ (by decide) (by decide)

theorem length_le_foldr_max (l : List (List XCell)) (row : List XCell) (h : row ∈ l) :
    row.length ≤ l.foldr (fun r m => max r.length m) 0 := by
  induction l with
  | nil => cases h
  | cons a t ih =>
      rcases List.mem_cons.mp h with rfl | h
      · exact le_max_left _ _
      · exact le_trans (ih h) (le_max_right _ _)

theorem length_le_maxColumn (ws : Worksheet) (row : List XCell) (h : row ∈ ws.rows) :
    row.length ≤ ws.maxColumn :=
  length_le_foldr_max ws.rows row h

theorem foldr_max_set_le (y : List XCell) (l : List (List XCell)) :
    ∀ i : Nat, (l.set i y).foldr (fun r m => max r.length m) 0 ≤
      max y.length (l.foldr (fun r m => max r.length m) 0) := by
  induction l with
  | nil => intro i; simp
  | cons a t ih =>
      intro i
      cases i with
      | zero =>
          simp only [List.set_cons_zero, List.foldr_cons]
          exact max_le_max le_rfl (le_max_right _ _)
      | succ j =>
          simp only [List.set_cons_succ, List.foldr_cons]
          exact le_trans (max_le_max le_rfl (ih j)) (le_of_eq (max_left_comm _ _ _))

theorem le_foldr_max_set (y : List XCell) (l : List (List XCell)) :
    ∀ i : Nat, i < l.length →
      y.length ≤ (l.set i y).foldr (fun r m => max r.length m) 0 := by
  induction l with
  | nil => intro i h; simp at h
  | cons a t ih =>
      intro i h
      cases i with
      | zero =>
          simp only [List.set_cons_zero, List.foldr_cons]
          exact le_max_left _ _
      | succ j =>
          simp only [List.set_cons_succ, List.foldr_cons]
          exact le_trans (ih j (Nat.lt_of_succ_lt_succ h)) (le_max_right _ _)

theorem length_restyleRow (fill font : String) (W : Nat) (row : List XCell) :
    (restyleRow fill font W row).length = W := by
  simp [restyleRow]

theorem restyleRow_getElem? (fill font : String) (W : Nat) (row : List XCell) (j : Nat) :
    (restyleRow fill font W row)[j]? =
      if j < W then some (restyleCell fill font ((row[j]?).getD defaultXCell)) else none := by
  unfold restyleRow
  rw [List.getElem?_map]
  by_cases h : j < W
  · simp [List.getElem?_range h, h]
  · rw [List.getElem?_eq_none (by simpa using Nat.le_of_not_lt h)]
    simp [h]

theorem maxColumn_setRow_restyle (ws : Worksheet) (r : Nat) (fill font : String) :
    (ws.setRow r (restyleRow fill font ws.maxColumn (ws.rowAt r))).maxColumn =
      ws.maxColumn := by
  by_cases hlt : r - 1 < ws.rows.length
  · apply le_antisymm
    · refine le_trans (foldr_max_set_le _ ws.rows (r - 1)) ?_
      rw [length_restyleRow]
      exact max_le le_rfl le_rfl
    · have h := le_foldr_max_set (restyleRow fill font ws.maxColumn (ws.rowAt r))
        ws.rows (r - 1) hlt
      rwa [length_restyleRow] at h
  · show (Worksheet.mk (ws.rows.set (r - 1) _)).maxColumn = ws.maxColumn
    rw [List.set_eq_of_length_le (Nat.le_of_not_lt hlt)]

theorem maxColumn_applyHighlight (m : Nat → Option String) (ws : Worksheet) (r : Nat) :
    (applyHighlight m ws r).maxColumn = ws.maxColumn := by
  rcases hm : m r with _ | ct
  · simp only [applyHighlight, hm]
  · simp only [applyHighlight, hm]
    by_cases h1 : ct = "New"
    · rw [if_pos h1]
      exact maxColumn_setRow_restyle ws r newRowFill newRowFont
    · rw [if_neg h1]
      by_cases h2 : ct = "Spring Changed"
      · rw [if_pos h2]
        exact maxColumn_setRow_restyle ws r changedRowFill changedRowFont
      · rw [if_neg h2]

theorem cellAt_applyHighlight_ne (m : Nat → Option String) (ws : Worksheet)
    (r0 r c : Nat) (h : r - 1 ≠ r0 - 1) :
    (applyHighlight m ws r0).cellAt r c = ws.cellAt r c := by
  rcases hm : m r0 with _ | ct
  · simp only [applyHighlight, hm]
  · simp only [applyHighlight, hm]
    have hset : ∀ y : List XCell, (ws.setRow r0 y).cellAt r c = ws.cellAt r c := by
      intro y
      unfold Worksheet.cellAt Worksheet.rowAt Worksheet.setRow
      rw [List.getElem?_set_ne (Ne.symm h)]
    by_cases h1 : ct = "New"
    · rw [if_pos h1]; exact hset _
    · rw [if_neg h1]
      by_cases h2 : ct = "Spring Changed"
      · rw [if_pos h2]; exact hset _
      · rw [if_neg h2]

theorem cellAt_setRow_restyle (ws : Worksheet) (r c : Nat) (fill font : String)
    (hc : 1 ≤ c) (row : List XCell) (hrow : ws.rows[r - 1]? = some row) :
    (ws.setRow r (restyleRow fill font ws.maxColumn (ws.rowAt r))).cellAt r c =
      if c ≤ ws.maxColumn then restyleCell fill font (ws.cellAt r c)
      else ws.cellAt r c := by
  have hlt : r - 1 < ws.rows.length := (List.getElem?_eq_some.mp hrow).1
  have hmem : row ∈ ws.rows := List.getElem?_mem hrow
  have hrl : row.length ≤ ws.maxColumn := length_le_maxColumn ws row hmem
  unfold Worksheet.cellAt Worksheet.rowAt Worksheet.setRow
  rw [List.getElem?_set_eq_of_lt _ hlt, hrow]
  simp only [Option.getD_some]
  rw [restyleRow_getElem?]
  by_cases hcw : c - 1 < ws.maxColumn
  · rw [if_pos hcw, if_pos (by omega)]
    rfl
  · rw [if_neg hcw, if_neg (by omega)]
    have hnone : row[c - 1]? = none := List.getElem?_eq_none (by omega)
    rw [hnone]

theorem cellAt_applyHighlight_self (m : Nat → Option String) (ws : Worksheet)
    (r c : Nat) (hc : 1 ≤ c) (hval : (ws.cellAt r 1).value ≠ none) :
    (applyHighlight m ws r).cellAt r c = highlightedCell m ws r c := by
  obtain ⟨row, hrow⟩ : ∃ row, ws.rows[r - 1]? = some row := by
    cases hr : ws.rows[r - 1]? with
    | some row => exact ⟨row, rfl⟩
    | none =>
        exfalso
        apply hval
        unfold Worksheet.cellAt Worksheet.rowAt
        rw [hr]
        rfl
  rcases hm : m r with _ | ct
  · simp only [applyHighlight, highlightedCell, hm]
  · simp only [applyHighlight, highlightedCell, hm]
    by_cases h1 : ct = "New"
    · rw [if_pos h1, if_pos h1]
      exact cellAt_setRow_restyle ws r c newRowFill newRowFont hc row hrow
    · rw [if_neg h1, if_neg h1]
      by_cases h2 : ct = "Spring Changed"
      · rw [if_pos h2, if_pos h2]
        exact cellAt_setRow_restyle ws r c changedRowFill changedRowFont hc row hrow
      · rw [if_neg h2, if_neg h2]

theorem highlightedCell_applyHighlight_ne (m : Nat → Option String) (ws : Worksheet)
    (r0 r c : Nat) (h : r - 1 ≠ r0 - 1) :
    highlightedCell m (applyHighlight m ws r0) r c = highlightedCell m ws r c := by
  unfold highlightedCell
  rw [maxColumn_applyHighlight, cellAt_applyHighlight_ne m ws r0 r c h]

theorem highlightLoop_cellAt (m : Nat → Option String) :
    ∀ (fuel : Nat) (r0 : Nat) (ws : Worksheet), 2 ≤ r0 →
      ∀ (r c : Nat), 1 ≤ c →
      (highlightLoop m ws r0 fuel).cellAt r c =
        if r0 ≤ r ∧ r < r0 + fuel ∧
            (∀ r', r0 ≤ r' → r' ≤ r → (ws.cellAt r' 1).value ≠ none)
        then highlightedCell m ws r c
        else ws.cellAt r c := by
  intro fuel
  induction fuel with
  | zero =>
      intro r0 ws hr0 r c hc
      simp only [highlightLoop]
      rw [if_neg (by rintro ⟨h1, h2, _⟩; omega)]
  | succ fuel ih =>
      intro r0 ws hr0 r c hc
      by_cases hbreak : (ws.cellAt r0 1).value = none
      · simp only [highlightLoop]
        rw [if_pos hbreak,
          if_neg (by rintro ⟨h1, _, h3⟩; exact h3 r0 le_rfl h1 hbreak)]
      · have hws' := ih (r0 + 1) (applyHighlight m ws r0) (by omega) r c hc
        simp only [highlightLoop]
        rw [if_neg hbreak, hws']
        by_cases hr : r = r0
        · subst hr
          rw [if_neg (by rintro ⟨h1, _, _⟩; omega)]
          rw [cellAt_applyHighlight_self m ws r c hc hbreak]
          rw [if_pos ⟨le_rfl, by omega, fun r' ha hb => by
            have hrr : r' = r := by omega
            rw [hrr]
            exact hbreak⟩]
        · have hidx : r - 1 ≠ r0 - 1 := by omega
          have hcell : (applyHighlight m ws r0).cellAt r c = ws.cellAt r c :=
            cellAt_applyHighlight_ne m ws r0 r c hidx
          have hcell1 : ∀ r', r0 + 1 ≤ r' →
              (applyHighlight m ws r0).cellAt r' 1 = ws.cellAt r' 1 := by
            intro r' h
            exact cellAt_applyHighlight_ne m ws r0 r' 1 (by omega)
          by_cases hcnd : r0 + 1 ≤ r ∧ r < r0 + 1 + fuel ∧
              ∀ r', r0 + 1 ≤ r' → r' ≤ r →
                ((applyHighlight m ws r0).cellAt r' 1).value ≠ none
          · rw [if_pos hcnd]
            obtain ⟨h1, h2, h3⟩ := hcnd
            have houter : r0 ≤ r ∧ r < r0 + (fuel + 1) ∧
                ∀ r', r0 ≤ r' → r' ≤ r → (ws.cellAt r' 1).value ≠ none := by
              refine ⟨by omega, by omega, fun r' ha hb => ?_⟩
              rcases eq_or_lt_of_le ha with heq | hlt
              · rw [← heq]
                exact hbreak
              · have hv := h3 r' (by omega) hb
                rwa [hcell1 r' (by omega)] at hv
            rw [if_pos houter]
            exact highlightedCell_applyHighlight_ne m ws r0 r c hidx
          · rw [if_neg hcnd, hcell]
            rw [if_neg (by
              rintro ⟨h1, h2, h3⟩
              apply hcnd
              refine ⟨by omega, by omega, fun r' ha hb => ?_⟩
              rw [hcell1 r' ha]
              exact h3 r' (by omega) hb)]

theorem highlightWorkbook_cellAt (m : Nat → Option String) (ws : Worksheet)
    (r c : Nat) (hc : 1 ≤ c) :
    (highlightWorkbook m ws).cellAt r c =
      if Scanned ws r then highlightedCell m ws r c else ws.cellAt r c := by
  unfold highlightWorkbook
  exact (highlightLoop_cellAt m maxIterations startRow ws (by decide) r c hc).trans
    (if_congr Iff.rfl rfl rfl)

/-- C7 counterexample: a row whose Cell ID New is classified `New` keeps its
original fill when an earlier row of the scan region has an empty
first-column cell — the highlighting loop breaks there and never reaches it. -/
theorem export_highlight_cex :
    cellIdToChange [(4, "New")] 4 = some "New" ∧
      (highlightWorkbook (cellIdToChange [(4, "New")]) cexSheet).cellAt 4 1 =
        cexSheet.cellAt 4 1 ∧
      (cexSheet.cellAt 4 1).fill ≠ newRowFill := by
  refine ⟨rfl, ?_, by decide⟩
  decide

/-- C7 (amended): within the scanned region — the contiguous block of rows
from row 3 whose first-column cells are non-empty, capped at 10000 rows —
every cell (up to the sheet's column span) of a row classified `New`
receives the New fill and font, every cell of a row classified
`Spring Changed` receives the Spring Changed fill and font, and every other
cell of the workbook (rows outside the scanned region, rows classified
otherwise — e.g. `Unchanged` — and rows with no classification; old-only
rows are never re-emitted at all) keeps its original fill and font. -/
theorem export_highlight_spec (results : List (Nat × String)) (ws : Worksheet)
    (r c : Nat) (hc : 1 ≤ c) :
    (Scanned ws r → cellIdToChange results r = some "New" → c ≤ ws.maxColumn →
      (highlightWorkbook (cellIdToChange results) ws).cellAt r c =
        restyleCell newRowFill newRowFont (ws.cellAt r c)) ∧
    (Scanned ws r → cellIdToChange results r = some "Spring Changed" →
      c ≤ ws.maxColumn →
      (highlightWorkbook (cellIdToChange results) ws).cellAt r c =
        restyleCell changedRowFill changedRowFont (ws.cellAt r c)) ∧
    (¬ Scanned ws r →
      (highlightWorkbook (cellIdToChange results) ws).cellAt r c = ws.cellAt r c) ∧
    (∀ ct : String, cellIdToChange results r = some ct → ct ≠ "New" →
      ct ≠ "Spring Changed" →
      (highlightWorkbook (cellIdToChange results) ws).cellAt r c = ws.cellAt r c) ∧
    (cellIdToChange results r = none →
      (highlightWorkbook (cellIdToChange results) ws).cellAt r c = ws.cellAt r c) := by
  refine ⟨?_, ?_, ?_, ?_, ?_⟩
  · intro hs hm hcw
    rw [highlightWorkbook_cellAt _ _ _ _ hc, if_pos hs]
    simp [highlightedCell, hm, hcw]
  · intro hs hm hcw
    rw [highlightWorkbook_cellAt _ _ _ _ hc, if_pos hs]
    simp [highlightedCell, hm, hcw]
  · intro hs
    rw [highlightWorkbook_cellAt _ _ _ _ hc, if_neg hs]
  · intro ct hm h1 h2
    rw [highlightWorkbook_cellAt _ _ _ _ hc]
    by_cases hs : Scanned ws r
    · rw [if_pos hs]
      simp [highlightedCell, hm, h1, h2]
    · rw [if_neg hs]
  · intro hm
    rw [highlightWorkbook_cellAt _ _ _ _ hc]
    by_cases hs : Scanned ws r
    · rw [if_pos hs]
      simp [highlightedCell, hm]
    · rw [if_neg hs]

/-- Concrete instantiation of `export_highlight_spec`: the single data row of
`witnessSheet`, classified `New`, gets the New fill and font. -/
theorem export_highlight_spec_witness :
    (highlightWorkbook (cellIdToChange [(3, "New")]) witnessSheet).cellAt 3 1 =
      restyleCell newRowFill newRowFont (witnessSheet.cellAt 3 1) :=
  (export_highlight_spec [(3, "New")] witnessSheet 3 1 (by decide)).1
    (by decide) rfl (by decide)

/-- C9: `create_excel_bytes` raises (ValueError) exactly when the original
path is missing or does not exist; any internal failure past that guard
yields the original file's bytes unchanged rather than an exception or a
partial result; and the highlighting scan touches no row past the 10000-row
cap nor any row at or beyond the first one whose first-column cell is empty. -/
theorem create_excel_bytes_error_spec (results : List (Nat × String))
    (f : OriginalFile) :
    ((∃ e : String, create_excel_bytes results f = .error e) ↔
      (f.path.getD "" = "" ∨ f.pathExists = false)) ∧
    (f.path.getD "" ≠ "" → f.pathExists = true → f.internalFailure = true →
      create_excel_bytes results f = .ok .originalFile) ∧
    (∀ (m : Nat → Option String) (ws : Worksheet) (r c : Nat), 1 ≤ c →
      startRow + maxIterations ≤ r →
      (highlightWorkbook m ws).cellAt r c = ws.cellAt r c) ∧
    (∀ (m : Nat → Option String) (ws : Worksheet) (r c rstop : Nat), 1 ≤ c →
      startRow ≤ rstop → rstop ≤ r → (ws.cellAt rstop 1).value = none →
      (highlightWorkbook m ws).cellAt r c = ws.cellAt r c) := by
  refine ⟨⟨?_, ?_⟩, ?_, ?_, ?_⟩
  · rintro ⟨e, he⟩
    by_cases h1 : f.path.getD "" = "" ∨ f.pathExists = false
    · exact h1
    · exfalso
      unfold create_excel_bytes at he
      rw [if_neg h1] at he
      split_ifs at he
  · intro h1
    exact ⟨_, by unfold create_excel_bytes; rw [if_pos h1]⟩
  · intro hp hex hint
    unfold create_excel_bytes
    rw [if_neg (by rintro (h | h); exacts [hp h, by simp [h] at hex]), if_pos hint]
  · intro m ws r c hc hr
    rw [highlightWorkbook_cellAt m ws r c hc, if_neg]
    rintro ⟨h1, h2, _⟩
    omega
  · intro m ws r c rstop hc h1 h2 hval
    rw [highlightWorkbook_cellAt m ws r c hc, if_neg]
    rintro ⟨g1, g2, g3⟩
    exact g3 rstop h1 h2 hval

/-- Concrete instantiation of `create_excel_bytes_error_spec`: with an
existing path and an internal failure, the original bytes come back. -/
theorem create_excel_bytes_error_spec_witness :
    create_excel_bytes [] ⟨some "report.xlsx", true, ⟨true, ⟨[]⟩⟩, true⟩ =
      .ok .originalFile :=
  (create_excel_bytes_error_spec [] ⟨some "report.xlsx", true, ⟨true, ⟨[]⟩⟩, true⟩).2.1
    (by decide) rfl rfl

/-- C10: `reset_data` sets both DataFrames, the results table and both file
paths to None, clears both Excel caches, resets the completion flag and the
step counter, and leaves every other field — `pta_type` being the only one —
unchanged. -/
theorem reset_data_spec (s : AppState) :
    (s.reset_data).old_df = none ∧
    (s.reset_data).new_df = none ∧
    (s.reset_data).results_df = none ∧
    (s.reset_data).old_file_path = none ∧
    (s.reset_data).new_file_path = none ∧
    (s.reset_data).excel_sheets_data = [] ∧
    (s.reset_data).excel_graphs_data = [] ∧
    (s.reset_data).analysis_completed = false ∧
    (s.reset_data).current_step = 0 ∧
    (s.reset_data).pta_type = s.pta_type :=
  ⟨rfl, rfl, rfl, rfl, rfl, rfl, rfl, rfl, rfl, rfl⟩
